import Mathlib

/-!
Verification of the quota-section core of the Cli-Proxy-API Management Center
front end: the pagination / grid-column calculator, the refresh-coordination
state machine, the per-credential quota fetch orchestrator, and the quota
store, shallowly embedded from
`src/components/quota/KiroQuotaSection.tsx` and the Copilot twin component.

Modelling conventions:
* JavaScript numbers that are used as integers (page cursors, counts,
  HTTP status codes) are modelled as `Nat`; fractional quantities
  (usage figures, container widths) as `ℚ` (IEEE-754 rounding is not
  relevant to any property proved here).
* `Math.ceil(a / b)` on naturals with `b > 0` is `(a + b - 1) / b`
  (`ceilDivNat`).  The source only evaluates it with `pageSize ≥ 1`
  (columns come from `useGridColumns`, which yields `max 1 ⌊w/380⌋`),
  so the `b = 0` corner never arises in the modelled domain.
* React `useState` cells become explicit state records threaded through
  transition functions; a `useEffect` body becomes a function from the
  observed inputs and previous state to the next state.
* `Record<string, T>` objects keyed by file name become functions
  `String → Option T`; the object spread `{...prev, [k]: v}` is a
  pointwise update.
* Fallible asynchronous calls become `Except FetchErr _` values; the
  HTTP client is an oracle `String → Except FetchErr KiroUsageInfo`
  keyed by the `auth_id` that the component puts in the query string
  (percent-encoding is presentational and not modelled).
* The i18n lookup `t` is an abstract `String → String`.
-/

/-- `Array.prototype.slice(s, e)` for `0 ≤ s` and `0 ≤ e`: the elements
with indices in `[s, e)`. -/
def jsSlice {α : Type} (xs : List α) (s e : Nat) : List α :=
  (xs.take e).drop s

/-- `Math.ceil(a / b)` for naturals, faithful when `b > 0`. -/
def ceilDivNat (a b : Nat) : Nat :=
  (a + b - 1) / b

/-- `type ViewMode = 'paged' | 'all'` (declared identically in both
provider components). -/
inductive ViewMode where
  | paged
  | all
  deriving DecidableEq, Repr

namespace Kiro

/-- `const MAX_ITEMS_PER_PAGE = 14` in `KiroQuotaSection.tsx`. -/
def MAX_ITEMS_PER_PAGE : Nat := 14

/-- `const MAX_SHOW_ALL_THRESHOLD = 30` in `KiroQuotaSection.tsx`. -/
def MAX_SHOW_ALL_THRESHOLD : Nat := 30

/-- `pageSize` memo of `useKiroPagination`: `max(1, items.length)` in
`all` mode, else `min(columns * 3, MAX_ITEMS_PER_PAGE)`. -/
def pageSize {α : Type} (items : List α) (columns : Nat) (viewMode : ViewMode) : Nat :=
  match viewMode with
  | .all => max 1 items.length
  | .paged => min (columns * 3) MAX_ITEMS_PER_PAGE

/-- `totalPages` memo of `useKiroPagination`:
`max(1, Math.ceil(items.length / pageSize))`. -/
def totalPages {α : Type} (items : List α) (columns : Nat) (viewMode : ViewMode) : Nat :=
  max 1 (ceilDivNat items.length (pageSize items columns viewMode))

/-- `currentPage` memo of `useKiroPagination`: `min(page, totalPages)`. -/
def currentPage {α : Type} (items : List α) (columns : Nat) (viewMode : ViewMode)
    (page : Nat) : Nat :=
  min page (totalPages items columns viewMode)

/-- `pageItems` memo of `useKiroPagination`:
`items.slice(start, start + pageSize)` with
`start = (currentPage - 1) * pageSize`. -/
def pageItems {α : Type} (items : List α) (columns : Nat) (viewMode : ViewMode)
    (page : Nat) : List α :=
  let start := (currentPage items columns viewMode page - 1) * pageSize items columns viewMode
  jsSlice items start (start + pageSize items columns viewMode)

/-- `goToPrev` of `useKiroPagination`: `setPage(prev => Math.max(1, prev - 1))`. -/
def goToPrev (page : Nat) : Nat :=
  max 1 (page - 1)

/-- `goToNext` of `useKiroPagination`:
`setPage(prev => Math.min(totalPages, prev + 1))`. -/
def goToNext {α : Type} (items : List α) (columns : Nat) (viewMode : ViewMode)
    (page : Nat) : Nat :=
  min (totalPages items columns viewMode) (page + 1)

/-- The `useEffect(() => setPage(1), [viewMode])` of `useKiroPagination`:
across a render where `viewMode` changed, the cursor becomes 1, otherwise
the effect does not rerun and the cursor is kept. -/
def pageAfterViewModeChange (prevMode newMode : ViewMode) (page : Nat) : Nat :=
  if prevMode = newMode then page else 1

/-- The column computation of `useGridColumns`'s resize callback:
`Math.max(1, Math.floor(width / minCardWidth))`. -/
def gridColumns (minCardWidth width : ℚ) : ℤ :=
  max 1 ⌊width / minCardWidth⌋

end Kiro

namespace Copilot

/-- `const MAX_ITEMS_PER_PAGE = 14` in `CopilotQuotaSection.tsx`. -/
def MAX_ITEMS_PER_PAGE : Nat := 14

/-- `const MAX_SHOW_ALL_THRESHOLD = 30` in `CopilotQuotaSection.tsx`. -/
def MAX_SHOW_ALL_THRESHOLD : Nat := 30

/-- `pageSize` memo of `useCopilotPagination`. -/
def pageSize {α : Type} (items : List α) (columns : Nat) (viewMode : ViewMode) : Nat :=
  match viewMode with
  | .all => max 1 items.length
  | .paged => min (columns * 3) MAX_ITEMS_PER_PAGE

/-- `totalPages` memo of `useCopilotPagination`. -/
def totalPages {α : Type} (items : List α) (columns : Nat) (viewMode : ViewMode) : Nat :=
  max 1 (ceilDivNat items.length (pageSize items columns viewMode))

/-- `currentPage` memo of `useCopilotPagination`. -/
def currentPage {α : Type} (items : List α) (columns : Nat) (viewMode : ViewMode)
    (page : Nat) : Nat :=
  min page (totalPages items columns viewMode)

/-- `pageItems` memo of `useCopilotPagination`. -/
def pageItems {α : Type} (items : List α) (columns : Nat) (viewMode : ViewMode)
    (page : Nat) : List α :=
  let start := (currentPage items columns viewMode page - 1) * pageSize items columns viewMode
  jsSlice items start (start + pageSize items columns viewMode)

/-- `goToPrev` of `useCopilotPagination`. -/
def goToPrev (page : Nat) : Nat :=
  max 1 (page - 1)

/-- `goToNext` of `useCopilotPagination`. -/
def goToNext {α : Type} (items : List α) (columns : Nat) (viewMode : ViewMode)
    (page : Nat) : Nat :=
  min (totalPages items columns viewMode) (page + 1)

/-- The `useEffect(() => setPage(1), [viewMode])` of `useCopilotPagination`. -/
def pageAfterViewModeChange (prevMode newMode : ViewMode) (page : Nat) : Nat :=
  if prevMode = newMode then page else 1

/-- The column computation of the Copilot file's `useGridColumns` copy. -/
def gridColumns (minCardWidth width : ℚ) : ℤ :=
  max 1 ⌊width / minCardWidth⌋

end Copilot

namespace Kiro

/-- `showAllAllowed = filteredFiles.length <= MAX_SHOW_ALL_THRESHOLD` in
`KiroQuotaSection`, as a function of the filtered credential count. -/
def showAllAllowed (filteredCount : Nat) : Bool :=
  decide (filteredCount ≤ MAX_SHOW_ALL_THRESHOLD)

/-- `effectiveViewMode = viewMode === 'all' && !showAllAllowed ? 'paged' : viewMode`. -/
def effectiveViewMode (viewMode : ViewMode) (filteredCount : Nat) : ViewMode :=
  if viewMode = ViewMode.all ∧ showAllAllowed filteredCount = false then ViewMode.paged
  else viewMode

/-- The two `useState` cells of `KiroQuotaSection` that the view-mode
logic touches: `viewMode` and `showTooManyWarning`. -/
structure UiState where
  viewMode : ViewMode
  showTooManyWarning : Bool
  deriving DecidableEq, Repr

/-- The `onClick` handler of the "all" view-mode button:
`if (filteredFiles.length > MAX_SHOW_ALL_THRESHOLD) setShowTooManyWarning(true)
else setViewMode('all')`. -/
def clickShowAll (filteredCount : Nat) (s : UiState) : UiState :=
  if MAX_SHOW_ALL_THRESHOLD < filteredCount then { s with showTooManyWarning := true }
  else { s with viewMode := ViewMode.all }

/-- The "auto-switch to paged mode if too many files" effect body of
`KiroQuotaSection` (the microtask having run uncancelled): if show-all is
still allowed or the stored mode is not `all`, nothing happens; otherwise
`setViewMode('paged')` and `setShowTooManyWarning(true)`. -/
def autoSwitchToPagedEffect (filteredCount : Nat) (s : UiState) : UiState :=
  if showAllAllowed filteredCount = true then s
  else if s.viewMode ≠ ViewMode.all then s
  else { viewMode := ViewMode.paged, showTooManyWarning := true }

end Kiro

/-! ## RefreshCoordinator

`KiroQuotaSection` (and its Copilot twin, line for line) keeps two refs,
`pendingRefreshRef` and `prevLoadingRef`, and one effect keyed on the
external `loading` prop.  `handleRefresh` sets the pending flag (and
fires the external list-reload trigger, which is outside this model);
every run of the effect observes the current `loading` value, updates
`prevLoadingRef`, and fires `loadAllQuotas` only when a refresh is
pending, `loading` is false, and the previously observed value was true.
-/

/-- The two refs of the refresh coordinator. -/
structure RefreshState where
  pendingRefresh : Bool
  prevLoading : Bool
  deriving DecidableEq, Repr

namespace Kiro

/-- `handleRefresh`: `pendingRefreshRef.current = true` (the call to
`triggerHeaderRefresh` is the external list-reload trigger, not modelled). -/
def handleRefresh (s : RefreshState) : RefreshState :=
  { s with pendingRefresh := true }

/-- One run of the `useEffect([loading, loadAllQuotas])` body observing the
current `loading` value: returns the next ref state and whether
`loadAllQuotas` was fired by this run. -/
def observeLoading (s : RefreshState) (loading : Bool) : RefreshState × Bool :=
  let wasLoading := s.prevLoading
  let s1 : RefreshState := { s with prevLoading := loading }
  if s.pendingRefresh = false then (s1, false)
  else if loading = true then (s1, false)
  else if wasLoading = false then (s1, false)
  else ({ s1 with pendingRefresh := false }, true)

/-- Run a sequence of observed `loading` values through the effect,
counting how many times `loadAllQuotas` fires. -/
def runObs (s : RefreshState) : List Bool → RefreshState × Nat
  | [] => (s, 0)
  | l :: ls =>
    let (s1, fired) := observeLoading s l
    let (s2, n) := runObs s1 ls
    (s2, (if fired then 1 else 0) + n)

/-- Whether a sequence of observed `loading` values, entered with previous
value `prev`, contains a `true → false` edge. -/
def hasTrueFalseEdge (prev : Bool) : List Bool → Bool
  | [] => false
  | l :: ls => (prev && !l) || hasTrueFalseEdge l ls

end Kiro

/-! ## Quota store, fetch, and batch orchestration -/

/-- The fields of `AuthFileItem` that the quota core reads: the identifier
chain `id ?? auth_id ?? authId ?? name` and the `name` used as store key.
(The remaining fields — provider tag, timestamps — feed only the
presentational layer and the provider filter, which are outside the
modelled core.) -/
structure AuthFileItem where
  id : Option String
  auth_id : Option String
  authId : Option String
  name : String
  deriving DecidableEq, Repr

/-- `KiroUsageInfo` as the component reads it: `subscription_title`,
`credit_usage`, `monthly_credit_limit`, `context_usage_percent`,
`monthly_context_limit` (the last two are read by `buildKiroQuotaItems`
although the declared interface in `types/kiroQuota.ts` omits them). -/
structure KiroUsageInfo where
  subscription_title : String
  credit_usage : ℚ
  monthly_credit_limit : ℚ
  context_usage_percent : ℚ
  monthly_context_limit : ℚ
  deriving DecidableEq, Repr

/-- `KiroQuotaItem` from `types/kiroQuota.ts`. -/
structure KiroQuotaItem where
  id : String
  label : String
  labelKey : Option String := none
  percentUsed : ℚ
  usage : ℚ
  limit : ℚ
  unit : Option String := none
  deriving DecidableEq, Repr

/-- The four values of `KiroQuotaState.status`. -/
inductive QuotaStatus where
  | idle
  | loading
  | success
  | error
  deriving DecidableEq, Repr

/-- `KiroQuotaState` from `types/kiroQuota.ts` (optional fields default to
absent, as in the object literals the component stores). -/
structure KiroQuotaState where
  status : QuotaStatus
  items : Option (List KiroQuotaItem) := none
  subscriptionTitle : Option String := none
  nextResetDate : Option String := none
  trialExpiryDate : Option String := none
  error : Option String := none
  errorStatus : Option Nat := none
  deriving DecidableEq, Repr

/-- An error thrown by the quota fetch: the `Error` message plus the
optional numeric `status` attached by the HTTP client. -/
structure FetchErr where
  message : String
  status : Option Nat := none
  deriving DecidableEq, Repr

/-- `setQuota` of `useKiroQuotaStore` / `useCopilotQuotaStore` (identical in
both): `setQuotaMap(prev => ({ ...prev, [fileName]: state }))`. -/
def setQuota {σ : Type} (prev : String → Option σ) (fileName : String) (state : σ) :
    String → Option σ :=
  fun k => if k = fileName then some state else prev k

/-- `clearQuota` of both quota stores: `setQuotaMap({})`. -/
def clearQuota {σ : Type} (_prev : String → Option σ) : String → Option σ :=
  fun _ => none

namespace Kiro

/-- The identifier chain of `fetchKiroQuota`:
`file.id ?? file.auth_id ?? file.authId ?? file.name` (nullish coalescing:
the first non-absent value wins, even when it is the empty string). -/
def kiroAuthId (file : AuthFileItem) : String :=
  match file.id with
  | some v => v
  | none =>
    match file.auth_id with
    | some v => v
    | none =>
      match file.authId with
      | some v => v
      | none => file.name

/-- `buildKiroQuotaItems(usage, t)`: the credit-usage and context-usage
rows (JS number arithmetic modelled over `ℚ`; the claims proved here do
not inspect these figures). -/
def buildKiroQuotaItems (usage : Option KiroUsageInfo) (t : String → String) :
    List KiroQuotaItem :=
  match usage with
  | none => []
  | some u =>
    [{ id := "credit_usage"
       label := t ("kiro_quota.credit_usage")
       labelKey := some ("kiro_quota.credit_usage")
       percentUsed := u.credit_usage / u.monthly_credit_limit * 100
       usage := u.credit_usage
       limit := u.monthly_credit_limit
       unit := some ("$") },
     { id := "context_usage"
       label := t ("kiro_quota.context_usage")
       labelKey := some ("kiro_quota.context_usage")
       percentUsed := u.context_usage_percent
       usage := u.context_usage_percent
       limit := u.monthly_context_limit
       unit := some ("%") }]

/-- `fetchKiroQuota(file, t)`, with the HTTP client as an oracle `net` from
the `auth_id` request key to the response: resolve the identifier chain,
throw `t('kiro_quota.missing_auth_id')` if it is falsy (absent or empty),
otherwise issue the request and normalise the response
(`subscriptionTitle = response.subscription_title || undefined`). -/
def fetchKiroQuota (net : String → Except FetchErr KiroUsageInfo)
    (t : String → String) (file : AuthFileItem) :
    Except FetchErr (List KiroQuotaItem × Option String) :=
  let authId := kiroAuthId file
  if authId = "" then
    Except.error { message := t ("kiro_quota.missing_auth_id"), status := none }
  else
    match net authId with
    | Except.error e => Except.error e
    | Except.ok response =>
      Except.ok (buildKiroQuotaItems (some response) t,
        if response.subscription_title = "" then none else some response.subscription_title)

/-- The `KiroQuotaState` that `loadQuotaForFile` ends up storing for a
file, as a function of its own fetch outcome. -/
def quotaOutcome (net : String → Except FetchErr KiroUsageInfo)
    (t : String → String) (file : AuthFileItem) : KiroQuotaState :=
  match fetchKiroQuota net t file with
  | Except.ok (items, subscriptionTitle) =>
    { status := QuotaStatus.success, items := some items,
      subscriptionTitle := subscriptionTitle }
  | Except.error e =>
    { status := QuotaStatus.error, items := some [],
      error := some e.message, errorStatus := e.status }

end Kiro

/-- The state writes performed by `loadAllQuotas` and `loadQuotaForFile`:
`setSectionLoading(b)` and `setQuota(fileName, state)`. -/
inductive SectionEvent where
  | setBusy (b : Bool)
  | writeQuota (fileName : String) (state : KiroQuotaState)
  deriving DecidableEq, Repr

/-- The section-level state the orchestrator writes: the quota map plus the
`sectionLoading` flag. -/
structure SectionState where
  quotaMap : String → Option KiroQuotaState
  sectionLoading : Bool

/-- Apply one state write. -/
def applyEvent (s : SectionState) : SectionEvent → SectionState
  | SectionEvent.setBusy b => { s with sectionLoading := b }
  | SectionEvent.writeQuota fileName state =>
    { s with quotaMap := setQuota s.quotaMap fileName state }

/-- Apply a sequence of state writes in order. -/
def applyEvents (s : SectionState) (evs : List SectionEvent) : SectionState :=
  evs.foldl applyEvent s

/-- The quota-map key a write touches (`none` for the busy flag). -/
def eventKey : SectionEvent → Option String
  | SectionEvent.setBusy _ => none
  | SectionEvent.writeQuota fileName _ => some fileName

namespace Kiro

/-- `loadQuotaForFile(file)` as its ordered sequence of state writes: first
`setQuota(file.name, {status:'loading', items: []})`, then — whether the
awaited fetch succeeds or throws — the final per-file state
(`try`/`catch`: a failure is consumed here and never rethrown, so the
surrounding `Promise.all` always resolves). -/
def loadQuotaForFileEvents (net : String → Except FetchErr KiroUsageInfo)
    (t : String → String) (file : AuthFileItem) : List SectionEvent :=
  [SectionEvent.writeQuota file.name { status := QuotaStatus.loading, items := some [] },
   SectionEvent.writeQuota file.name (quotaOutcome net t file)]

/-- `loadAllQuotas` as its sequence of state writes: nothing on an empty
filtered list; otherwise `setSectionLoading(true)`, the per-file writes of
every `loadQuotaForFile` (`Promise.all` fan-out; the interleaving of the
per-file writes is immaterial because each file's writes touch only its
own key, so the sequential order is used), then `setSectionLoading(false)`. -/
def loadAllQuotasEvents (net : String → Except FetchErr KiroUsageInfo)
    (t : String → String) (filteredFiles : List AuthFileItem) : List SectionEvent :=
  if filteredFiles.isEmpty then []
  else
    SectionEvent.setBusy true ::
      (filteredFiles.flatMap (loadQuotaForFileEvents net t) ++ [SectionEvent.setBusy false])

end Kiro

/-! ### Concrete fixtures for witness instantiations -/

/-- A sample backend payload. -/
def sampleUsage : KiroUsageInfo :=
  { subscription_title := "Pro", credit_usage := 1, monthly_credit_limit := 2,
    context_usage_percent := 3, monthly_context_limit := 100 }

/-- A sample HTTP oracle: auth id `a1` fails with status 404, everything
else succeeds. -/
def sampleNet : String → Except FetchErr KiroUsageInfo :=
  fun a =>
    if a = "a1" then Except.error { message := "boom", status := some 404 }
    else Except.ok sampleUsage

/-- A credential whose id resolves to `a1`. -/
def fileA : AuthFileItem :=
  { id := some ("a1"), auth_id := none, authId := none, name := "A" }

/-- A credential whose id resolves to `b1`. -/
def fileB : AuthFileItem :=
  { id := some ("b1"), auth_id := none, authId := none, name := "B" }

/-- A credential whose `id` is present but empty while its `name` is a
usable non-empty identifier. -/
def fileEmptyId : AuthFileItem :=
  { id := some (""), auth_id := none, authId := none, name := "x" }

/-- A credential with every identifier field absent or empty. -/
def fileAllEmpty : AuthFileItem :=
  { id := none, auth_id := none, authId := none, name := "" }

/-! ## Theorems -/

/-- Helper: `max(1, ceil(L / max(1, L))) = 1` — the show-all page size fits
everything on one page. -/
theorem max_one_ceilDiv_max_one (L : Nat) : max 1 (ceilDivNat L (max 1 L)) = 1 := by
  rcases L with _ | n
  · simp [ceilDivNat]
  · have hm : max 1 (n + 1) = n + 1 := by omega
    have hd : ceilDivNat (n + 1) (n + 1) = 1 :=
      Nat.div_eq_of_lt_le (by omega) (by omega)
    rw [hm, hd]
    omega

/-- Claim C3: for every item list and columns ≥ 1, in paged mode
`pageSize = min(columns * 3, 14)` and `pageSize ≥ 1`; in all mode
`pageSize = max(1, items.length)` and there is exactly one page
(in both provider components). -/
theorem pagination_pageSize_spec {α : Type} (items : List α) (columns : Nat)
    (hc : 1 ≤ columns) :
    (Kiro.pageSize items columns ViewMode.paged = min (columns * 3) 14 ∧
      1 ≤ Kiro.pageSize items columns ViewMode.paged ∧
      Kiro.pageSize items columns ViewMode.all = max 1 items.length ∧
      Kiro.totalPages items columns ViewMode.all = 1) ∧
    (Copilot.pageSize items columns ViewMode.paged = min (columns * 3) 14 ∧
      1 ≤ Copilot.pageSize items columns ViewMode.paged ∧
      Copilot.pageSize items columns ViewMode.all = max 1 items.length ∧
      Copilot.totalPages items columns ViewMode.all = 1) := by
  constructor
  · refine ⟨rfl, ?_, rfl, ?_⟩
    · simp only [Kiro.pageSize, Kiro.MAX_ITEMS_PER_PAGE]
      omega
    · simp only [Kiro.totalPages, Kiro.pageSize]
      exact max_one_ceilDiv_max_one items.length
  · refine ⟨rfl, ?_, rfl, ?_⟩
    · simp only [Copilot.pageSize, Copilot.MAX_ITEMS_PER_PAGE]
      omega
    · simp only [Copilot.totalPages, Copilot.pageSize]
      exact max_one_ceilDiv_max_one items.length

/-- Witness for C3 at a concrete input. -/
theorem pagination_pageSize_spec_witness :
    Kiro.pageSize ([0, 1, 2, 3] : List Nat) 1 ViewMode.paged = 3 ∧
    Kiro.totalPages ([0, 1, 2, 3] : List Nat) 1 ViewMode.all = 1 := by
  obtain ⟨⟨h1, h2, h3, h4⟩, h5⟩ :=
    pagination_pageSize_spec ([0, 1, 2, 3] : List Nat) 1 (by decide)
  exact ⟨by simpa using h1, h4⟩

/-- Claim C5: above the fixed threshold of 30 filtered credentials, the
all view mode is never in effect: `effectiveViewMode` coerces any stored
mode to paged, a direct click on the all button leaves the stored mode
unchanged and surfaces the warning, and the auto-downgrade effect flips a
stored all mode to paged and surfaces the warning. -/
theorem kiro_showAll_threshold (filteredCount : Nat) (viewMode : ViewMode)
    (s : Kiro.UiState) (h : Kiro.MAX_SHOW_ALL_THRESHOLD < filteredCount) :
    Kiro.effectiveViewMode viewMode filteredCount = ViewMode.paged ∧
    (Kiro.clickShowAll filteredCount s).viewMode = s.viewMode ∧
    (Kiro.clickShowAll filteredCount s).showTooManyWarning = true ∧
    (s.viewMode = ViewMode.all →
      Kiro.autoSwitchToPagedEffect filteredCount s =
        { viewMode := ViewMode.paged, showTooManyWarning := true }) := by
  have hs : Kiro.showAllAllowed filteredCount = false := by
    simp only [Kiro.showAllAllowed, decide_eq_false_iff_not, Nat.not_le]
    exact h
  refine ⟨?_, ?_, ?_, ?_⟩
  · cases viewMode <;> simp [Kiro.effectiveViewMode, hs]
  · simp [Kiro.clickShowAll, h]
  · simp [Kiro.clickShowAll, h]
  · intro hv
    simp [Kiro.autoSwitchToPagedEffect, hs, hv]

/-- Witness for C5 at 31 credentials. -/
theorem kiro_showAll_threshold_witness :
    Kiro.effectiveViewMode ViewMode.all 31 = ViewMode.paged ∧
    (Kiro.clickShowAll 31 ⟨ViewMode.all, false⟩).viewMode = ViewMode.all ∧
    (Kiro.clickShowAll 31 ⟨ViewMode.all, false⟩).showTooManyWarning = true ∧
    Kiro.autoSwitchToPagedEffect 31 ⟨ViewMode.all, false⟩ =
      { viewMode := ViewMode.paged, showTooManyWarning := true } := by
  obtain ⟨h1, h2, h3, h4⟩ :=
    kiro_showAll_threshold 31 ViewMode.all ⟨ViewMode.all, false⟩ (by decide)
  exact ⟨h1, h2, h3, h4 rfl⟩

/-- Claim C8: every change of the view mode resets the page cursor to 1,
and the displayed page after the switch is the first page. -/
theorem kiro_viewMode_change_resets_page {α : Type} (items : List α) (columns : Nat)
    (prevMode newMode : ViewMode) (page : Nat) (h : prevMode ≠ newMode) :
    Kiro.pageAfterViewModeChange prevMode newMode page = 1 ∧
    Kiro.currentPage items columns newMode 1 = 1 := by
  constructor
  · simp [Kiro.pageAfterViewModeChange, h]
  · simp only [Kiro.currentPage, Kiro.totalPages]
    omega

/-- Witness for C8 at a concrete mode switch. -/
theorem kiro_viewMode_change_resets_page_witness :
    Kiro.pageAfterViewModeChange ViewMode.paged ViewMode.all 5 = 1 ∧
    Kiro.currentPage ([0, 1, 2] : List Nat) 2 ViewMode.all 1 = 1 :=
  kiro_viewMode_change_resets_page ([0, 1, 2] : List Nat) 2
    ViewMode.paged ViewMode.all 5 (by decide)

/-- Claim C9: the Kiro and Copilot pagination hooks are extensionally
equal — same `pageSize`, `totalPages`, `currentPage`, `pageItems`, cursor
updates, view-mode reset, grid-column computation, and the same constants
14 and 30. -/
theorem kiro_copilot_pagination_equal {α : Type} (items : List α) (columns : Nat)
    (viewMode : ViewMode) (page : Nat) (prevMode newMode : ViewMode)
    (minCardWidth width : ℚ) :
    Kiro.pageSize items columns viewMode = Copilot.pageSize items columns viewMode ∧
    Kiro.totalPages items columns viewMode = Copilot.totalPages items columns viewMode ∧
    Kiro.currentPage items columns viewMode page =
      Copilot.currentPage items columns viewMode page ∧
    Kiro.pageItems items columns viewMode page =
      Copilot.pageItems items columns viewMode page ∧
    Kiro.goToPrev page = Copilot.goToPrev page ∧
    Kiro.goToNext items columns viewMode page =
      Copilot.goToNext items columns viewMode page ∧
    Kiro.pageAfterViewModeChange prevMode newMode page =
      Copilot.pageAfterViewModeChange prevMode newMode page ∧
    Kiro.gridColumns minCardWidth width = Copilot.gridColumns minCardWidth width ∧
    Kiro.MAX_ITEMS_PER_PAGE = Copilot.MAX_ITEMS_PER_PAGE ∧
    Kiro.MAX_ITEMS_PER_PAGE = 14 ∧
    Kiro.MAX_SHOW_ALL_THRESHOLD = Copilot.MAX_SHOW_ALL_THRESHOLD ∧
    Kiro.MAX_SHOW_ALL_THRESHOLD = 30 := by
  cases viewMode <;>
    exact ⟨rfl, rfl, rfl, rfl, rfl, rfl, rfl, rfl, rfl, rfl, rfl, rfl⟩

/-- Claim C10: `setQuota(n, s)` maps `n` to exactly `s` and leaves every
other name unchanged; `clearQuota` empties the map regardless of prior
contents (the store code is shared verbatim by both sections). -/
theorem setQuota_clearQuota_frame {σ : Type} (m : String → Option σ)
    (n : String) (s : σ) :
    setQuota m n s n = some s ∧
    (∀ k, k ≠ n → setQuota m n s k = m k) ∧
    (∀ k, clearQuota m k = none) := by
  refine ⟨by simp [setQuota], fun k hk => by simp [setQuota, hk], fun k => rfl⟩

/-- Witness for C10 on a concrete map. -/
theorem setQuota_clearQuota_frame_witness :
    setQuota (fun _ => (none : Option Nat)) "a" 7 "a" = some 7 ∧
    setQuota (fun _ => (none : Option Nat)) "a" 7 "b" = none ∧
    clearQuota (fun _ => (some 7 : Option Nat)) "b" = none := by
  obtain ⟨h1, h2, h3⟩ := setQuota_clearQuota_frame (fun _ => (none : Option Nat)) "a" 7
  exact ⟨h1, h2 ("b") (by decide), h3 ("b")⟩

/-- Helper: `pageItems` reads the cursor only through `currentPage`. -/
theorem kiro_pageItems_congr {α : Type} (items : List α) (columns : Nat)
    (viewMode : ViewMode) {p q : Nat}
    (h : Kiro.currentPage items columns viewMode p =
      Kiro.currentPage items columns viewMode q) :
    Kiro.pageItems items columns viewMode p = Kiro.pageItems items columns viewMode q := by
  simp only [Kiro.pageItems, h]

/-- Claim C4: for every item list, columns ≥ 1, view mode, and any reachable
page cursor (the cursor is initialised to 1 and every setter keeps it ≥ 1,
so reachable cursors — including those left over from a longer list — are
exactly the positive ones): `totalPages ≥ 1`, the derived `currentPage`
lies in `[1, totalPages]`, and the visible slice is
`items[(currentPage-1)*pageSize : currentPage*pageSize]`. -/
theorem kiro_pagination_invariants {α : Type} (items : List α) (columns : Nat)
    (viewMode : ViewMode) (page : Nat) (hc : 1 ≤ columns) (hp : 1 ≤ page) :
    1 ≤ Kiro.totalPages items columns viewMode ∧
    1 ≤ Kiro.currentPage items columns viewMode page ∧
    Kiro.currentPage items columns viewMode page ≤ Kiro.totalPages items columns viewMode ∧
    Kiro.pageItems items columns viewMode page =
      jsSlice items
        ((Kiro.currentPage items columns viewMode page - 1) *
          Kiro.pageSize items columns viewMode)
        (Kiro.currentPage items columns viewMode page *
          Kiro.pageSize items columns viewMode) := by
  have htp : 1 ≤ Kiro.totalPages items columns viewMode := by
    simp only [Kiro.totalPages]; omega
  have hcp : 1 ≤ Kiro.currentPage items columns viewMode page := by
    simp only [Kiro.currentPage]; omega
  refine ⟨htp, hcp, ?_, ?_⟩
  · simp only [Kiro.currentPage]; omega
  · obtain ⟨k, hk⟩ := Nat.exists_eq_add_of_le hcp
    have hsub : Kiro.currentPage items columns viewMode page - 1 = k := by omega
    have hmul : k * Kiro.pageSize items columns viewMode +
        Kiro.pageSize items columns viewMode =
        Kiro.currentPage items columns viewMode page *
          Kiro.pageSize items columns viewMode := by
      rw [hk]; ring
    simp only [Kiro.pageItems, hsub, hmul]

/-- Witness for C4 with a leftover cursor (page 7 on a 10-item list). -/
theorem kiro_pagination_invariants_witness :
    1 ≤ Kiro.totalPages ([0, 1, 2, 3, 4, 5, 6, 7, 8, 9] : List Nat) 1 ViewMode.paged ∧
    1 ≤ Kiro.currentPage ([0, 1, 2, 3, 4, 5, 6, 7, 8, 9] : List Nat) 1 ViewMode.paged 7 ∧
    Kiro.currentPage ([0, 1, 2, 3, 4, 5, 6, 7, 8, 9] : List Nat) 1 ViewMode.paged 7 ≤
      Kiro.totalPages ([0, 1, 2, 3, 4, 5, 6, 7, 8, 9] : List Nat) 1 ViewMode.paged ∧
    Kiro.pageItems ([0, 1, 2, 3, 4, 5, 6, 7, 8, 9] : List Nat) 1 ViewMode.paged 7 =
      jsSlice ([0, 1, 2, 3, 4, 5, 6, 7, 8, 9] : List Nat)
        ((Kiro.currentPage ([0, 1, 2, 3, 4, 5, 6, 7, 8, 9] : List Nat) 1 ViewMode.paged 7 - 1) *
          Kiro.pageSize ([0, 1, 2, 3, 4, 5, 6, 7, 8, 9] : List Nat) 1 ViewMode.paged)
        (Kiro.currentPage ([0, 1, 2, 3, 4, 5, 6, 7, 8, 9] : List Nat) 1 ViewMode.paged 7 *
          Kiro.pageSize ([0, 1, 2, 3, 4, 5, 6, 7, 8, 9] : List Nat) 1 ViewMode.paged) :=
  kiro_pagination_invariants ([0, 1, 2, 3, 4, 5, 6, 7, 8, 9] : List Nat) 1
    ViewMode.paged 7 (by decide) (by decide)

/-- Claim C7: `goToPrev` at `currentPage = 1` and `goToNext` at
`currentPage = totalPages` leave the observable state (`currentPage` and
the visible slice) unchanged; otherwise `goToPrev` decrements and
`goToNext` increments the cursor, and the derived `currentPage` stays
clamped to `[1, totalPages]` after either operation. -/
theorem kiro_pagination_nav {α : Type} (items : List α) (columns : Nat)
    (viewMode : ViewMode) (page : Nat) (hc : 1 ≤ columns) (hp : 1 ≤ page) :
    (Kiro.currentPage items columns viewMode page = 1 →
      Kiro.currentPage items columns viewMode (Kiro.goToPrev page) =
        Kiro.currentPage items columns viewMode page ∧
      Kiro.pageItems items columns viewMode (Kiro.goToPrev page) =
        Kiro.pageItems items columns viewMode page) ∧
    (Kiro.currentPage items columns viewMode page = Kiro.totalPages items columns viewMode →
      Kiro.currentPage items columns viewMode
          (Kiro.goToNext items columns viewMode page) =
        Kiro.currentPage items columns viewMode page ∧
      Kiro.pageItems items columns viewMode (Kiro.goToNext items columns viewMode page) =
        Kiro.pageItems items columns viewMode page) ∧
    (Kiro.currentPage items columns viewMode page ≠ 1 →
      Kiro.goToPrev page = page - 1) ∧
    (Kiro.currentPage items columns viewMode page ≠ Kiro.totalPages items columns viewMode →
      Kiro.goToNext items columns viewMode page = page + 1) ∧
    1 ≤ Kiro.currentPage items columns viewMode (Kiro.goToPrev page) ∧
    Kiro.currentPage items columns viewMode (Kiro.goToPrev page) ≤
      Kiro.totalPages items columns viewMode ∧
    1 ≤ Kiro.currentPage items columns viewMode
        (Kiro.goToNext items columns viewMode page) ∧
    Kiro.currentPage items columns viewMode (Kiro.goToNext items columns viewMode page) ≤
      Kiro.totalPages items columns viewMode := by
  have htp : 1 ≤ Kiro.totalPages items columns viewMode := by
    simp only [Kiro.totalPages]; omega
  refine ⟨?_, ?_, ?_, ?_, ?_, ?_, ?_, ?_⟩
  · intro h
    have hcp : Kiro.currentPage items columns viewMode (Kiro.goToPrev page) =
        Kiro.currentPage items columns viewMode page := by
      simp only [Kiro.currentPage, Kiro.goToPrev] at h ⊢
      omega
    exact ⟨hcp, kiro_pageItems_congr items columns viewMode hcp⟩
  · intro h
    have hcp : Kiro.currentPage items columns viewMode
        (Kiro.goToNext items columns viewMode page) =
        Kiro.currentPage items columns viewMode page := by
      simp only [Kiro.currentPage, Kiro.goToNext] at h ⊢
      omega
    exact ⟨hcp, kiro_pageItems_congr items columns viewMode hcp⟩
  · intro h
    simp only [Kiro.currentPage] at h
    simp only [Kiro.goToPrev]
    omega
  · intro h
    simp only [Kiro.currentPage] at h
    simp only [Kiro.goToNext]
    omega
  · simp only [Kiro.currentPage, Kiro.goToPrev]; omega
  · simp only [Kiro.currentPage, Kiro.goToPrev]; omega
  · simp only [Kiro.currentPage, Kiro.goToNext]; omega
  · simp only [Kiro.currentPage, Kiro.goToNext]; omega

/-- Witness for C7: a 10-item paged list with one column (4 pages). -/
theorem kiro_pagination_nav_witness :
    Kiro.currentPage ([0, 1, 2, 3, 4, 5, 6, 7, 8, 9] : List Nat) 1 ViewMode.paged
        (Kiro.goToPrev 1) = 1 ∧
    Kiro.pageItems ([0, 1, 2, 3, 4, 5, 6, 7, 8, 9] : List Nat) 1 ViewMode.paged
        (Kiro.goToPrev 1) =
      Kiro.pageItems ([0, 1, 2, 3, 4, 5, 6, 7, 8, 9] : List Nat) 1 ViewMode.paged 1 ∧
    Kiro.goToPrev 3 = 2 ∧
    Kiro.goToNext ([0, 1, 2, 3, 4, 5, 6, 7, 8, 9] : List Nat) 1 ViewMode.paged 3 = 4 ∧
    Kiro.currentPage ([0, 1, 2, 3, 4, 5, 6, 7, 8, 9] : List Nat) 1 ViewMode.paged
        (Kiro.goToNext ([0, 1, 2, 3, 4, 5, 6, 7, 8, 9] : List Nat) 1 ViewMode.paged 4) =
      Kiro.currentPage ([0, 1, 2, 3, 4, 5, 6, 7, 8, 9] : List Nat) 1 ViewMode.paged 4 := by
  obtain ⟨p1, -, -, -, -, -, -, -⟩ :=
    kiro_pagination_nav ([0, 1, 2, 3, 4, 5, 6, 7, 8, 9] : List Nat) 1
      ViewMode.paged 1 (by decide) (by decide)
  obtain ⟨hc1, hp1⟩ := p1 (by decide)
  obtain ⟨-, -, p3, -, -, -, -, -⟩ :=
    kiro_pagination_nav ([0, 1, 2, 3, 4, 5, 6, 7, 8, 9] : List Nat) 1
      ViewMode.paged 3 (by decide) (by decide)
  obtain ⟨-, -, -, p4, -, -, -, -⟩ :=
    kiro_pagination_nav ([0, 1, 2, 3, 4, 5, 6, 7, 8, 9] : List Nat) 1
      ViewMode.paged 3 (by decide) (by decide)
  obtain ⟨-, p2, -, -, -, -, -, -⟩ :=
    kiro_pagination_nav ([0, 1, 2, 3, 4, 5, 6, 7, 8, 9] : List Nat) 1
      ViewMode.paged 4 (by decide) (by decide)
  obtain ⟨hc4, -⟩ := p2 (by decide)
  refine ⟨by rw [hc1]; decide, hp1, p3 (by decide), p4 (by decide), hc4⟩

/-- Helper: with no pending refresh, observing `loading` values never
fires a fetch and never sets the pending flag. -/
theorem runObs_no_pending (tr : List Bool) :
    ∀ s : RefreshState, s.pendingRefresh = false →
    (Kiro.runObs s tr).2 = 0 ∧ (Kiro.runObs s tr).1.pendingRefresh = false := by
  induction tr with
  | nil => intro s h; exact ⟨rfl, h⟩
  | cons l ls ih =>
    intro s h
    have hobs : Kiro.observeLoading s l = ({ s with prevLoading := l }, false) := by
      simp [Kiro.observeLoading, h]
    obtain ⟨h1, h2⟩ := ih { s with prevLoading := l } h
    simp [Kiro.runObs, hobs, h1, h2]

/-- Helper: with a pending refresh, the number of fetches fired over an
observation sequence is 1 when the sequence contains a `true → false`
edge (relative to the previously observed value) and 0 otherwise. -/
theorem runObs_pending (tr : List Bool) :
    ∀ s : RefreshState, s.pendingRefresh = true →
    (Kiro.runObs s tr).2 =
      (if Kiro.hasTrueFalseEdge s.prevLoading tr then 1 else 0) := by
  induction tr with
  | nil => intro s h; simp [Kiro.runObs, Kiro.hasTrueFalseEdge]
  | cons l ls ih =>
    intro s h
    rcases hl : l with _ | _
    · rcases hw : s.prevLoading with _ | _
      · have hobs : Kiro.observeLoading s false = ({ s with prevLoading := false }, false) := by
          simp [Kiro.observeLoading, h, hw]
        have hrec := ih { s with prevLoading := false } h
        simp [Kiro.runObs, hobs, hrec, Kiro.hasTrueFalseEdge, hw]
      · have hobs : Kiro.observeLoading s false =
            ({ pendingRefresh := false, prevLoading := false }, true) := by
          simp [Kiro.observeLoading, h, hw]
        have hrec := runObs_no_pending ls { pendingRefresh := false, prevLoading := false } rfl
        simp [Kiro.runObs, hobs, hrec.1, Kiro.hasTrueFalseEdge, hw]
    · have hobs : Kiro.observeLoading s true = ({ s with prevLoading := true }, false) := by
        simp [Kiro.observeLoading, h]
      have hrec := ih { s with prevLoading := true } h
      simp [Kiro.runObs, hobs, hrec, Kiro.hasTrueFalseEdge]

/-- Claim C1: the refresh action sets the pending flag (leaving the
previously observed loading value alone); from that point the batch fetch
fires exactly once when the observed loading sequence contains a
`true → false` edge and zero times otherwise — hence at most once per
refresh click — and with no pending refresh no observation sequence ever
fires a fetch. -/
theorem refresh_coordinator_edge_trigger (s : RefreshState) (tr : List Bool) :
    (Kiro.handleRefresh s).pendingRefresh = true ∧
    (Kiro.handleRefresh s).prevLoading = s.prevLoading ∧
    (Kiro.runObs (Kiro.handleRefresh s) tr).2 =
      (if Kiro.hasTrueFalseEdge s.prevLoading tr then 1 else 0) ∧
    (Kiro.runObs (Kiro.handleRefresh s) tr).2 ≤ 1 ∧
    (s.pendingRefresh = false → (Kiro.runObs s tr).2 = 0) := by
  have h3 := runObs_pending tr (Kiro.handleRefresh s) rfl
  refine ⟨rfl, rfl, h3, ?_, fun h => (runObs_no_pending tr s h).1⟩
  rw [h3]
  split <;> omega

/-- Witness for C1: from an idle coordinator, the sequence
`loading: true, false` fires exactly one fetch after a refresh click and
none without one. -/
theorem refresh_coordinator_edge_trigger_witness :
    (Kiro.runObs (Kiro.handleRefresh ⟨false, false⟩) [true, false]).2 = 1 ∧
    (Kiro.runObs (⟨false, false⟩ : RefreshState) [true, false]).2 = 0 := by
  obtain ⟨-, -, h3, -, h5⟩ :=
    refresh_coordinator_edge_trigger ⟨false, false⟩ [true, false]
  have he : Kiro.hasTrueFalseEdge false [true, false] = true := by decide
  rw [he] at h3
  exact ⟨by simpa using h3, h5 rfl⟩

/-- Helper: applying a concatenation applies the parts in order. -/
theorem applyEvents_append (s : SectionState) (l1 l2 : List SectionEvent) :
    applyEvents s (l1 ++ l2) = applyEvents (applyEvents s l1) l2 := by
  simp [applyEvents, List.foldl_append]

/-- Helper: writes that never touch key `n` leave the map at `n` alone. -/
theorem applyEvents_untouched (n : String) :
    ∀ (evs : List SectionEvent) (s : SectionState),
    (∀ ev ∈ evs, eventKey ev ≠ some n) →
    (applyEvents s evs).quotaMap n = s.quotaMap n := by
  intro evs
  induction evs with
  | nil => intro s _; rfl
  | cons ev rest ih =>
    intro s hk
    have hrest : ∀ e ∈ rest, eventKey e ≠ some n := fun e he => hk e (List.mem_cons_of_mem _ he)
    have hhead := hk ev (List.mem_cons_self _ _)
    have : (applyEvent s ev).quotaMap n = s.quotaMap n := by
      rcases ev with b | ⟨m, st⟩
      · rfl
      · have hmn : m ≠ n := fun hEq => hhead (by simp [eventKey, hEq])
        simp [applyEvent, setQuota, Ne.symm hmn]
    calc (applyEvents s (ev :: rest)).quotaMap n
        = (applyEvents (applyEvent s ev) rest).quotaMap n := rfl
      _ = (applyEvent s ev).quotaMap n := ih (applyEvent s ev) hrest
      _ = s.quotaMap n := this

/-- Helper: a busy-flag write never touches the quota map, and quota
writes never touch the busy flag. -/
theorem applyEvents_loadFile (net : String → Except FetchErr KiroUsageInfo)
    (t : String → String) (file : AuthFileItem) (s : SectionState) :
    (applyEvents s (Kiro.loadQuotaForFileEvents net t file)).quotaMap =
      setQuota s.quotaMap file.name (Kiro.quotaOutcome net t file) ∧
    (applyEvents s (Kiro.loadQuotaForFileEvents net t file)).sectionLoading =
      s.sectionLoading := by
  constructor
  · funext k
    by_cases hk : k = file.name <;>
      simp [applyEvents, Kiro.loadQuotaForFileEvents, applyEvent, setQuota, hk]
  · rfl

/-- Helper: every write of a single-file load touches exactly that file's
key. -/
theorem loadFileEvents_key (net : String → Except FetchErr KiroUsageInfo)
    (t : String → String) (file : AuthFileItem) :
    ∀ ev ∈ Kiro.loadQuotaForFileEvents net t file, eventKey ev = some file.name := by
  intro ev hev
  simp only [Kiro.loadQuotaForFileEvents, List.mem_cons, List.mem_singleton] at hev
  rcases hev with h | h | h
  · subst h; rfl
  · subst h; rfl
  · cases h

/-- Helper: the fan-out over a list of files with pairwise-distinct names
stores for each file exactly its own fetch outcome, leaves every other
key alone, and does not touch the busy flag. -/
theorem applyEvents_fanout (net : String → Except FetchErr KiroUsageInfo)
    (t : String → String) :
    ∀ (files : List AuthFileItem) (s : SectionState),
    (files.map AuthFileItem.name).Nodup →
    ((∀ f ∈ files,
        (applyEvents s (files.flatMap (Kiro.loadQuotaForFileEvents net t))).quotaMap f.name =
          some (Kiro.quotaOutcome net t f)) ∧
      (∀ n, n ∉ files.map AuthFileItem.name →
        (applyEvents s (files.flatMap (Kiro.loadQuotaForFileEvents net t))).quotaMap n =
          s.quotaMap n) ∧
      (applyEvents s (files.flatMap (Kiro.loadQuotaForFileEvents net t))).sectionLoading =
        s.sectionLoading) := by
  intro files
  induction files with
  | nil => intro s _; exact ⟨fun f hf => absurd hf (List.not_mem_nil f), fun n _ => rfl, rfl⟩
  | cons f0 rest ih =>
    intro s hnd
    obtain ⟨hnd0, hndr⟩ :
        (∀ x ∈ rest, ¬ x.name = f0.name) ∧ (rest.map AuthFileItem.name).Nodup := by
      simpa using hnd
    have hsplit : (f0 :: rest).flatMap (Kiro.loadQuotaForFileEvents net t) =
        Kiro.loadQuotaForFileEvents net t f0 ++
          rest.flatMap (Kiro.loadQuotaForFileEvents net t) := by
      simp [List.flatMap_cons]
    set s1 := applyEvents s (Kiro.loadQuotaForFileEvents net t f0) with hs1
    obtain ⟨hmap0, hbusy0⟩ := applyEvents_loadFile net t f0 s
    obtain ⟨ihA, ihB, ihC⟩ := ih s1 hndr
    have happ : applyEvents s ((f0 :: rest).flatMap (Kiro.loadQuotaForFileEvents net t)) =
        applyEvents s1 (rest.flatMap (Kiro.loadQuotaForFileEvents net t)) := by
      rw [hsplit, applyEvents_append]
    refine ⟨?_, ?_, ?_⟩
    · intro f hf
      rcases List.mem_cons.mp hf with h | h
      · subst h
        have hkeys : ∀ ev ∈ rest.flatMap (Kiro.loadQuotaForFileEvents net t),
            eventKey ev ≠ some f.name := by
          intro ev hev
          obtain ⟨g, hg, hevg⟩ := List.mem_flatMap.mp hev
          rw [loadFileEvents_key net t g ev hevg]
          intro hEq
          exact hnd0 g hg (by simpa using hEq)
        rw [happ, applyEvents_untouched f.name _ s1 hkeys, hmap0]
        simp [setQuota]
      · rw [happ]
        exact ihA f h
    · intro n hn
      have hn0 : n ≠ f0.name := by
        intro hEq; exact hn (by simp [hEq])
      have hnr : n ∉ rest.map AuthFileItem.name := by
        intro hmem; exact hn (by simp [hmem])
      rw [happ, ihB n hnr, hmap0]
      simp [setQuota, hn0]
    · rw [happ, ihC, hbusy0]

/-- Claim C2: on a non-empty credential list with distinct names, the
batch fetch first sets the busy flag, issues a per-credential load for
every credential, ends (it always does — every failure is consumed by the
per-credential catch) by clearing the busy flag; each credential whose
fetch fails stores an error state carrying the thrown message and any
numeric status code, every credential stores exactly its own fetch
outcome (so one credential's failure cannot affect another's state), and
keys outside the list are untouched. -/
theorem loadAllQuotas_batch (net : String → Except FetchErr KiroUsageInfo)
    (t : String → String) (files : List AuthFileItem) (s : SectionState)
    (hne : files ≠ []) (hnd : (files.map AuthFileItem.name).Nodup) :
    (Kiro.loadAllQuotasEvents net t files).head? = some (SectionEvent.setBusy true) ∧
    (Kiro.loadAllQuotasEvents net t files).getLast? = some (SectionEvent.setBusy false) ∧
    (applyEvents s (Kiro.loadAllQuotasEvents net t files)).sectionLoading = false ∧
    (∀ f ∈ files,
      SectionEvent.writeQuota f.name { status := QuotaStatus.loading, items := some [] } ∈
        Kiro.loadAllQuotasEvents net t files) ∧
    (∀ f ∈ files,
      (applyEvents s (Kiro.loadAllQuotasEvents net t files)).quotaMap f.name =
        some (Kiro.quotaOutcome net t f)) ∧
    (∀ f ∈ files, ∀ e, Kiro.fetchKiroQuota net t f = Except.error e →
      (applyEvents s (Kiro.loadAllQuotasEvents net t files)).quotaMap f.name =
        some { status := QuotaStatus.error, items := some [],
               error := some e.message, errorStatus := e.status }) ∧
    (∀ n, n ∉ files.map AuthFileItem.name →
      (applyEvents s (Kiro.loadAllQuotasEvents net t files)).quotaMap n = s.quotaMap n) := by
  rcases files with _ | ⟨f0, rest⟩
  · exact absurd rfl hne
  have hev : Kiro.loadAllQuotasEvents net t (f0 :: rest) =
      SectionEvent.setBusy true ::
        ((f0 :: rest).flatMap (Kiro.loadQuotaForFileEvents net t) ++
          [SectionEvent.setBusy false]) := by
    simp [Kiro.loadAllQuotasEvents]
  have happly : applyEvents s (Kiro.loadAllQuotasEvents net t (f0 :: rest)) =
      applyEvent
        (applyEvents { s with sectionLoading := true }
          ((f0 :: rest).flatMap (Kiro.loadQuotaForFileEvents net t)))
        (SectionEvent.setBusy false) := by
    rw [hev]
    show applyEvents (applyEvent s (SectionEvent.setBusy true))
      ((f0 :: rest).flatMap (Kiro.loadQuotaForFileEvents net t) ++
        [SectionEvent.setBusy false]) = _
    rw [applyEvents_append]
    rfl
  obtain ⟨hA, hB, hC⟩ :=
    applyEvents_fanout net t (f0 :: rest) { s with sectionLoading := true } hnd
  have hqm : ∀ n, (applyEvents s (Kiro.loadAllQuotasEvents net t (f0 :: rest))).quotaMap n =
      (applyEvents { s with sectionLoading := true }
        ((f0 :: rest).flatMap (Kiro.loadQuotaForFileEvents net t))).quotaMap n := by
    intro n
    rw [happly]
    rfl
  refine ⟨?_, ?_, ?_, ?_, ?_, ?_, ?_⟩
  · rw [hev]; rfl
  · rw [hev, ← List.cons_append]
    exact List.getLast?_concat _
  · rw [happly]; rfl
  · intro f hf
    rw [hev]
    have hmem : SectionEvent.writeQuota f.name
        { status := QuotaStatus.loading, items := some [] } ∈
        (f0 :: rest).flatMap (Kiro.loadQuotaForFileEvents net t) := by
      refine List.mem_flatMap.mpr ⟨f, hf, ?_⟩
      simp [Kiro.loadQuotaForFileEvents]
    exact List.mem_cons_of_mem _ (List.mem_append_left _ hmem)
  · intro f hf
    rw [hqm]
    exact hA f hf
  · intro f hf e he
    rw [hqm, hA f hf]
    simp [Kiro.quotaOutcome, he]
  · intro n hn
    rw [hqm]
    exact hB n hn

/-- Witness for C2: two credentials, the first failing with 404, the
second succeeding; the busy flag ends cleared, the first stores the error
with its message and status, the second its own success outcome, and an
unrelated key stays empty. -/
theorem loadAllQuotas_batch_witness :
    (applyEvents ⟨fun _ => none, false⟩
        (Kiro.loadAllQuotasEvents sampleNet id [fileA, fileB])).sectionLoading = false ∧
    (applyEvents ⟨fun _ => none, false⟩
        (Kiro.loadAllQuotasEvents sampleNet id [fileA, fileB])).quotaMap (fileA.name) =
      some { status := QuotaStatus.error, items := some [],
             error := some ("boom"), errorStatus := some 404 } ∧
    (applyEvents ⟨fun _ => none, false⟩
        (Kiro.loadAllQuotasEvents sampleNet id [fileA, fileB])).quotaMap (fileB.name) =
      some (Kiro.quotaOutcome sampleNet id fileB) ∧
    (applyEvents ⟨fun _ => none, false⟩
        (Kiro.loadAllQuotasEvents sampleNet id [fileA, fileB])).quotaMap "C" = none := by
  obtain ⟨-, -, h3, -, h5, h6, h7⟩ :=
    loadAllQuotas_batch sampleNet id [fileA, fileB] ⟨fun _ => none, false⟩
      (by simp) (by decide)
  refine ⟨h3, ?_, h5 fileB (by simp), h7 ("C") (by decide)⟩
  exact h6 fileA (by simp) { message := "boom", status := some 404 } rfl

/-- Claim C6 counterexample: a credential whose `id` field is present but
empty while its `name` is non-empty.  The claim says a request keyed by
the first usable identifier (here `name = "x"`) is issued; the code
instead resolves the nullish chain to the empty `id`, throws the
missing-identifier error, and never consults the HTTP oracle (the result
is identical under any oracle). -/
theorem kiro_identifier_first_present_counterexample :
    fileEmptyId.name = "x" ∧
    fileEmptyId.id = some ("") ∧
    Kiro.fetchKiroQuota sampleNet id fileEmptyId =
      Except.error { message := "kiro_quota.missing_auth_id", status := none } ∧
    Kiro.fetchKiroQuota sampleNet id fileEmptyId =
      Kiro.fetchKiroQuota (fun _ => Except.ok sampleUsage) id fileEmptyId := by
  exact ⟨rfl, rfl, rfl, rfl⟩

/-- Claim C6 (amended): `fetchKiroQuota` resolves the nullish chain
`id ?? auth_id ?? authId ?? name` — the first non-absent field wins, even
when empty.  When the resolved value is empty (in particular when all
four fields are absent or empty) the fetch fails fast with the
missing-identifier error, independently of the HTTP oracle (no network
call), and the failure is stored as that credential's error state; when
it is non-empty, that value — not necessarily the first non-empty
field — keys the request. -/
theorem kiro_identifier_resolution (net net' : String → Except FetchErr KiroUsageInfo)
    (t : String → String) (file : AuthFileItem)
    (m : String → Option KiroQuotaState) (b : Bool) :
    ((file.id = none ∨ file.id = some ("")) →
      (file.auth_id = none ∨ file.auth_id = some ("")) →
      (file.authId = none ∨ file.authId = some ("")) →
      file.name = "" →
      Kiro.kiroAuthId file = "") ∧
    (Kiro.kiroAuthId file = "" →
      Kiro.fetchKiroQuota net t file =
        Except.error { message := t ("kiro_quota.missing_auth_id"), status := none } ∧
      Kiro.fetchKiroQuota net t file = Kiro.fetchKiroQuota net' t file ∧
      (applyEvents ⟨m, b⟩ (Kiro.loadQuotaForFileEvents net t file)).quotaMap file.name =
        some { status := QuotaStatus.error, items := some [],
               error := some (t ("kiro_quota.missing_auth_id")), errorStatus := none }) ∧
    (¬ Kiro.kiroAuthId file = "" →
      Kiro.fetchKiroQuota net t file =
        (match net (Kiro.kiroAuthId file) with
         | Except.error e => Except.error e
         | Except.ok response =>
           Except.ok (Kiro.buildKiroQuotaItems (some response) t,
             if response.subscription_title = "" then none
             else some response.subscription_title)) ∧
      (net (Kiro.kiroAuthId file) = net' (Kiro.kiroAuthId file) →
        Kiro.fetchKiroQuota net t file = Kiro.fetchKiroQuota net' t file)) := by
  refine ⟨?_, ?_, ?_⟩
  · intro h1 h2 h3 h4
    rcases h1 with h1 | h1 <;> rcases h2 with h2 | h2 <;> rcases h3 with h3 | h3 <;>
      simp [Kiro.kiroAuthId, h1, h2, h3, h4]
  · intro h
    have hfetch : Kiro.fetchKiroQuota net t file =
        Except.error { message := t ("kiro_quota.missing_auth_id"), status := none } := by
      simp [Kiro.fetchKiroQuota, h]
    have hfetch' : Kiro.fetchKiroQuota net' t file =
        Except.error { message := t ("kiro_quota.missing_auth_id"), status := none } := by
      simp [Kiro.fetchKiroQuota, h]
    refine ⟨hfetch, hfetch.trans hfetch'.symm, ?_⟩
    rw [(applyEvents_loadFile net t file ⟨m, b⟩).1]
    simp [setQuota, Kiro.quotaOutcome, hfetch]
  · intro h
    refine ⟨by simp [Kiro.fetchKiroQuota, h], fun hnet => ?_⟩
    simp [Kiro.fetchKiroQuota, h, hnet]

/-- Witness for the amended C6: the all-empty credential fails fast and
stores the error; a credential with id `b1` issues the request keyed by
`b1`. -/
theorem kiro_identifier_resolution_witness :
    Kiro.kiroAuthId fileAllEmpty = "" ∧
    Kiro.fetchKiroQuota sampleNet id fileAllEmpty =
      Except.error { message := "kiro_quota.missing_auth_id", status := none } ∧
    (applyEvents ⟨fun _ => none, false⟩
        (Kiro.loadQuotaForFileEvents sampleNet id fileAllEmpty)).quotaMap
        (fileAllEmpty.name) =
      some { status := QuotaStatus.error, items := some [],
             error := some ("kiro_quota.missing_auth_id"), errorStatus := none } ∧
    Kiro.fetchKiroQuota sampleNet id fileB =
      (match sampleNet (Kiro.kiroAuthId fileB) with
       | Except.error e => Except.error e
       | Except.ok response =>
         Except.ok (Kiro.buildKiroQuotaItems (some response) id,
           if response.subscription_title = "" then none
           else some response.subscription_title)) := by
  obtain ⟨p1, p2, -⟩ :=
    kiro_identifier_resolution sampleNet sampleNet id fileAllEmpty (fun _ => none) false
  have h0 : Kiro.kiroAuthId fileAllEmpty = "" :=
    p1 (Or.inl rfl) (Or.inl rfl) (Or.inl rfl) rfl
  obtain ⟨q1, -, q3⟩ := p2 h0
  obtain ⟨-, -, p3b⟩ :=
    kiro_identifier_resolution sampleNet sampleNet id fileB (fun _ => none) false
  have hb : ¬ Kiro.kiroAuthId fileB = "" := by decide
  exact ⟨h0, q1, q3, (p3b hb).1⟩
